import Mathlib

/-!
Verification of the Grid torch hook service, shallowly embedded from
src/grid/services/torch/hook_service.py: interception, command
compilation, ownership resolution, dispatch and the pointer proxy model.
Collaborators of the service that are part of the repository but not
under src (BaseService.register_object, the torch_utils helpers, the
messaging worker) are modelled from the spec; each such definition says
so in its doc comment.
-/

/-- String constants used as message texts, dictionary keys and fixture
names throughout the development. -/
def registrationKey : String := "registration"

def torchTypeKey : String := "torch_type"

def notSubscriptableMsg : String := "int object is not subscriptable"

def mpcMsg : String := "MPC not yet implemented"

def tensorTypeVar : String := "_tensor_type"

def pointerVar : String := "pointer"

def sendCommandAttr : String := "send_command"

def oldUnderscore : String := "old_"

def olStart : String := "ol"

/-- Python exceptions that can arise in the embedded code paths. -/
inductive PyError where
  | notImplementedError (msg : String)
  | typeError (msg : String)
  | keyError (key : String)
  | nameError (name : String)
  | attributeError (name : String)
  | unboundLocalError (name : String)
  | indexError
deriving DecidableEq

/-- A tracked Torch object: its registry metadata (id, owners,
is_pointer, and a registered mark modelling the ownership attribute that
registration sets on the object), its Torch type name and its payload. -/
structure TObj where
  id : Nat
  owners : List String
  is_pointer : Bool
  registered : Bool
  ttype : String
  data : List Int
deriving DecidableEq

/-- Python values appearing as operands of an intercepted call: None,
numbers, strings, live tracked tensors, and the reference descriptors
that replace remote tensors on the wire. -/
inductive PyVal where
  | pynone
  | int (n : Int)
  | str (s : String)
  | tensor (t : TObj)
  | ref (id : Nat) (owners : List String)
deriving DecidableEq

/-- The runtime type tag of a value, as the name of type(x) computes
it. -/
def type_name : PyVal → String
  | PyVal.pynone => "NoneType"
  | PyVal.int _ => "int"
  | PyVal.str _ => "str"
  | PyVal.tensor t => t.ttype
  | PyVal.ref _ _ => "dict"

/-- The Command record assembled by compile_command (source lines 104 to
117). -/
structure Command where
  has_self : Bool
  self? : Option PyVal
  command : String
  args : List PyVal
  kwargs : List (String × PyVal)
  arg_types : List String
  kwarg_types : List String
deriving DecidableEq

/-- compile_command (source lines 93 to 117): when has_self holds, the
first positional argument becomes the self field (an empty argument list
would raise IndexError at args[0]) and the remaining positionals keep
their order in args; arg_types maps the type tag over the remaining
positionals and kwarg_types maps the type tag over the keyword values,
in keyword order, without the keyword names. -/
def compile_command (funcName : String) (args : List PyVal)
    (kwargs : List (String × PyVal)) (has_self : Bool) :
    Except PyError Command :=
  if has_self then
    match args with
    | [] => Except.error PyError.indexError
    | a :: rest =>
      Except.ok { has_self := true, self? := some a, command := funcName,
                  args := rest, kwargs := kwargs,
                  arg_types := rest.map type_name,
                  kwarg_types := kwargs.map (fun p => type_name p.2) }
  else
    Except.ok { has_self := false, self? := none, command := funcName,
                args := args, kwargs := kwargs,
                arg_types := args.map type_name,
                kwarg_types := kwargs.map (fun p => type_name p.2) }

/-- Observable state of the local hook service: the local worker id, the
fresh id counter of the registry, the log of registrations performed,
and the logs of outgoing messaging (objects published, commands sent,
object requests issued). -/
structure HookState where
  selfWorker : String
  nextId : Nat
  regLog : List (Nat × List String × Bool)
  sentObjs : List (String × TObj)
  sentCommands : List (String × Command)
  objRequests : List (String × Nat)
deriving DecidableEq

/-- Modelled from the spec: BaseService.register_object is part of the
repository but not under src. Spec section 6 gives its contract:
register(object, id?, owners?, isPointer?) returns the object with those
fields set, assigning a fresh id when omitted. Omitted owners keep the
current owners of the object (section 4.5: after get the owners are not
reset; section 8: a fresh construction ends with the local worker as
owner, which the fresh object carries before registration). Omitted
is_pointer defaults to false (sections 4.5 and 8: both get and
construction end non-pointer while omitting is_pointer at the call
site). Registration also marks the object as carrying ownership
metadata and appends to the registration log. -/
def register_object (st : HookState) (obj : TObj) (id? : Option Nat)
    (owners? : Option (List String)) (isPointer? : Option Bool) :
    TObj × HookState :=
  let i := id?.getD st.nextId
  let next := if id?.isSome then st.nextId else st.nextId + 1
  let ws := owners?.getD obj.owners
  let p := isPointer?.getD false
  ({ obj with id := i, owners := ws, is_pointer := p, registered := true },
   { st with nextId := next, regLog := st.regLog ++ [(i, ws, p)] })

/-- send_obj (source lines 38 to 42): publish the object, serialized
with its data included, to the recipient; modelled as appending the
recipient and the full object to the log of sent objects. -/
def send_obj (st : HookState) (obj : TObj) (recipient : String) :
    HookState :=
  { st with sentObjs := st.sentObjs ++ [(recipient, obj)] }

/-- Hooked construction of tensor_type(0) (source lines 283 to 300): the
hooked new method registers the freshly constructed zero-sized object as
a non-pointer under a fresh id, and the hooked init method registers it
once more under another fresh id. The fresh object carries the local
worker as owner and an empty payload. -/
def construct_tensor (st : HookState) (ttype : String) :
    TObj × HookState :=
  let fresh : TObj :=
    { id := 0, owners := [st.selfWorker], is_pointer := false,
      registered := false, ttype := ttype, data := [] }
  let p1 := register_object st fresh none none (some false)
  register_object p1.2 p1.1 none none (some false)

/-- old_set_ replaces the storage of the receiver with the storage of
the argument, keeping the identity metadata of the receiver. -/
def old_set_ (self other : TObj) : TObj := { self with data := other.data }

/-- Modelled from the spec: tu.check_workers is part of the repository
but not under src. Spec section 4.5: it normalizes the destinations to a
non-empty ordered sequence (a singleton string becomes a one element
list); destinations are already a list in this embedding, so the
normalization is the identity. -/
def check_workers (workers : List String) : List String := workers

/-- send_ (source lines 121 to 140): re-register the handle in place
with unchanged id and owners equal to the destinations, publish the full
object to each destination in order, then replace local storage by a
zero-sized placeholder of the same declared type and re-register with
unchanged id, the destinations as owners, and is_pointer true. -/
def send_ (st : HookState) (self : TObj) (workers : List String) :
    TObj × HookState :=
  let ws := check_workers workers
  let p1 := register_object st self (some self.id) (some ws) none
  let st2 := ws.foldl (fun s w => send_obj s p1.1 w) p1.2
  let p2 := construct_tensor st2 p1.1.ttype
  let placeholder := old_set_ p1.1 p2.1
  register_object p2.2 placeholder (some p1.1.id) (some ws) (some true)

/-- The default reduce of get_ (source line 144): select the first
collected value; on an empty collection Python raises IndexError. -/
def default_reduce (xs : List TObj) : Except PyError TObj :=
  match xs with
  | [] => Except.error PyError.indexError
  | x :: _ => Except.ok x

/-- Loop body of get_ (source lines 159 to 162): for each owner in
order, request the object from that owner (the fetch parameter models
the materialized payload the messaging collaborator returns, spec
section 6), register the retrieved payload under its own id, and collect
the registered payloads in owner order. -/
def get_loop (fetch : String → TObj) (selfId : Nat) :
    List String → HookState → List TObj × HookState
  | [], st => ([], st)
  | w :: ws, st =>
    let x := fetch w
    let st1 := { st with objRequests := st.objRequests ++ [(w, selfId)] }
    let p := register_object st1 x (some x.id) none none
    let r := get_loop fetch selfId ws p.2
    (p.1 :: r.1, r.2)

/-- get_ (source lines 143 to 164): return the handle unchanged when the
local worker is among the owners; otherwise collect the payload from
each owner in order, reduce the collection, overwrite local storage with
the reduced payload and re-register under the original id, with owners
and is_pointer omitted at the registration call. -/
def get_ (st : HookState) (self : TObj)
    (reduce : List TObj → Except PyError TObj) (fetch : String → TObj) :
    Except PyError (TObj × HookState) :=
  if st.selfWorker ∈ self.owners then Except.ok (self, st)
  else
    let r := get_loop fetch self.id self.owners st
    match reduce r.1 with
    | Except.error e => Except.error e
    | Except.ok red =>
      Except.ok (register_object r.2 (old_set_ self red) (some self.id)
        none none)

/-- A hooked autograd Variable: registry metadata, the underlying data
and grad tensors saved under the old names, and the memo flags used by
the hooked data and grad properties (a false flag models the attribute
being absent, which the source detects through AttributeError). -/
structure VarObj where
  id : Nat
  owners : List String
  is_pointer : Bool
  old_data : TObj
  old_grad : Option TObj
  data_registered : Bool
  grad_registered : Bool
deriving DecidableEq

/-- new_data (source lines 334 to 343): on first access register the
underlying data tensor under the id, owners and is_pointer of the
Variable and set the memo flag; on every later access return the cached
tensor unchanged. -/
def new_data (st : HookState) (v : VarObj) : TObj × VarObj × HookState :=
  if v.data_registered then (v.old_data, v, st)
  else
    let p := register_object st v.old_data (some v.id) (some v.owners)
      (some v.is_pointer)
    (p.1, { v with old_data := p.1, data_registered := true }, p.2)

/-- new_grad (source lines 345 to 355): like new_data but only when the
grad tensor is not None; a None grad registers nothing, sets no flag,
and is returned as is. -/
def new_grad (st : HookState) (v : VarObj) :
    Option TObj × VarObj × HookState :=
  if v.grad_registered then (v.old_grad, v, st)
  else
    match v.old_grad with
    | none => (none, v, st)
    | some g =>
      let p := register_object st g (some v.id) (some v.owners)
        (some v.is_pointer)
      (some p.1, { v with old_grad := some p.1, grad_registered := true },
       p.2)

/-- Modelled from the spec: tu.get_tensorvars is part of the repository
but not under src. Spec section 4.3: collect every tensor-like operand
of the command, from self, args and kwargs. -/
def get_tensorvars (c : Command) : List TObj :=
  (match c.self? with
   | some (PyVal.tensor t) => [t]
   | _ => []) ++
  c.args.filterMap (fun v => match v with
    | PyVal.tensor t => some t
    | _ => none) ++
  c.kwargs.filterMap (fun p => match p.2 with
    | PyVal.tensor t => some t
    | _ => none)

/-- Modelled from the spec: tu.check_remote is part of the repository
but not under src. Spec section 4.3: a command has remote operands when
some tensor-like operand is a pointer. -/
def check_remote (ts : List TObj) : Bool := ts.any (fun t => t.is_pointer)

/-- Insert a worker into an owner list unless it is already present,
keeping first occurrence order. -/
def union_insert (acc : List String) (w : String) : List String :=
  if w ∈ acc then acc else acc ++ [w]

/-- Modelled from the spec: tu.get_owners is part of the repository but
not under src. Spec section 4.3: compute the union of the owners of the
remote operands; the first component says whether that union contains
more than one distinct worker. -/
def get_owners (ts : List TObj) : Bool × List String :=
  let ws := ts.foldl
    (fun acc t =>
      if t.is_pointer then t.owners.foldl union_insert acc else acc) []
  (decide (1 < ws.length), ws)

/-- Modelled from the spec: the per-operand rewrite of
tu.replace_in_command; a pointer operand becomes a reference descriptor
of id and owners, anything else is unchanged. -/
def replace_operand (v : PyVal) : PyVal :=
  match v with
  | PyVal.tensor t => if t.is_pointer then PyVal.ref t.id t.owners else v
  | _ => v

/-- Modelled from the spec: tu.replace_in_command is part of the
repository but not under src. Spec section 4.4: rewrite the remote
tensor operands of the command to reference-only descriptors. -/
def replace_in_command (c : Command) : Command :=
  { c with self? := c.self?.map replace_operand,
           args := c.args.map replace_operand,
           kwargs := c.kwargs.map (fun p => (p.1, replace_operand p.2)) }

/-- Registration metadata carried by a remote response. -/
structure Registration where
  id : Nat
  owners : List String
  is_pointer : Bool
deriving DecidableEq

/-- A response dictionary on the wire: optional registration metadata,
optional declared result type, optional numeric payload (spec section
6). -/
structure RespDict where
  registration? : Option Registration
  torch_type? : Option String
  numeric? : Option Int
deriving DecidableEq

/-- A processed response value: either still the response dictionary, or
the bare numeric payload extracted from it. -/
inductive RespVal where
  | dict (d : RespDict)
  | num (n : Int)
deriving DecidableEq

/-- process_response (source lines 83 to 90): unpack the response (the
unpack helper of utils is wire deserialization, the identity on this
model of responses) and return its numeric entry when the key is
present, otherwise return the response itself. -/
def process_response (raw : RespDict) : RespVal :=
  match raw.numeric? with
  | some n => RespVal.num n
  | none => RespVal.dict raw

/-- Subscripting a processed response with the registration key: on a
bare number this raises TypeError (a number is not subscriptable), on a
dictionary without the key it raises KeyError. -/
def resp_registration (r : RespVal) : Except PyError Registration :=
  match r with
  | RespVal.num _ => Except.error (PyError.typeError notSubscriptableMsg)
  | RespVal.dict d =>
    match d.registration? with
    | some reg => Except.ok reg
    | none => Except.error (PyError.keyError registrationKey)

/-- Subscripting a processed response with the declared type key, with
the same error behavior as for the registration key. -/
def resp_torch_type (r : RespVal) : Except PyError String :=
  match r with
  | RespVal.num _ => Except.error (PyError.typeError notSubscriptableMsg)
  | RespVal.dict d =>
    match d.torch_type? with
    | some tt => Except.ok tt
    | none => Except.error (PyError.keyError torchTypeKey)

/-- Modelled from the spec: the tracked tensorvar type names of
BaseService are part of the repository but not under src; the tracked
types are the Torch tensor types and Variable (spec glossary). -/
def tensorvar_type_names : List String :=
  ["FloatTensor", "DoubleTensor", "HalfTensor", "ByteTensor",
   "CharTensor", "ShortTensor", "IntTensor", "LongTensor", "Variable"]

/-- Modelled from the spec: tu.types_guard is part of the repository but
not under src. It maps a declared result type name to the tracked Torch
type and raises KeyError on an unknown name. -/
def types_guard (name : String) : Except PyError String :=
  if name ∈ tensorvar_type_names then Except.ok name
  else Except.error (PyError.keyError name)

/-- assemble_result_pointer (source lines 62 to 80): resolve the
declared type through types_guard; on KeyError the handler raises
TypeError, but formatting its message evaluates the name _tensor_type,
which is undefined in the source (the local variable is torch_type), so
the handler raises NameError for that name instead. On success a
zero-sized instance of the resolved type is constructed through the
hooked constructors and registered with the registration attributes. -/
def assemble_result_pointer (st : HookState) (registration : Registration)
    (torch_type : String) : Except PyError (TObj × HookState) :=
  match types_guard torch_type with
  | Except.error (PyError.keyError _) =>
    Except.error (PyError.nameError tensorTypeVar)
  | Except.error e => Except.error e
  | Except.ok t =>
    let p := construct_tensor st t
    Except.ok (register_object p.2 p.1 (some registration.id)
      (some registration.owners) (some registration.is_pointer))

/-- The outcome of a dispatched call: a tracked object (a registered
local result or an assembled pointer), a plain untracked value, or a
response returned directly. -/
inductive DispResult where
  | obj (t : TObj)
  | val (v : PyVal)
  | resp (r : RespVal)
deriving DecidableEq

/-- One iteration of the dispatch loop of overload_function (source
lines 210 to 216): send the command to the worker, process the response,
then inside a try block read the registration and the declared type from
the response and assemble the result pointer; a KeyError from the reads
returns the response itself, and any other exception propagates. -/
def func_step (st : HookState) (c : Command) (w : String)
    (respond : String → RespDict) :
    Except PyError ((TObj ⊕ RespVal) × HookState) :=
  let st1 := { st with sentCommands := st.sentCommands ++ [(w, c)] }
  let resp := process_response (respond w)
  match resp_registration resp with
  | Except.error (PyError.keyError _) => Except.ok (Sum.inr resp, st1)
  | Except.error e => Except.error e
  | Except.ok reg =>
    match resp_torch_type resp with
    | Except.error (PyError.keyError _) => Except.ok (Sum.inr resp, st1)
    | Except.error e => Except.error e
    | Except.ok tt =>
      match assemble_result_pointer st1 reg tt with
      | Except.error e => Except.error e
      | Except.ok p => Except.ok (Sum.inl p.1, p.2)

/-- Dispatch loop of overload_function (source lines 204 to 217):
iterate over the resolved owners in order; a response without the keys
returns immediately from inside the loop, a pointer is kept only from
the last iteration; with no owners the loop never runs and the final
read of the pointer variable is unbound. -/
def func_loop (c : Command) (respond : String → RespDict) :
    List String → HookState → Except PyError (DispResult × HookState)
  | [], _ => Except.error (PyError.unboundLocalError pointerVar)
  | w :: rest, st =>
    match func_step st c w respond with
    | Except.error e => Except.error e
    | Except.ok (Sum.inr r, st1) => Except.ok (DispResult.resp r, st1)
    | Except.ok (Sum.inl p, st1) =>
      match rest with
      | [] => Except.ok (DispResult.obj p, st1)
      | _ :: _ => func_loop c respond rest st1

/-- overload_function (source lines 182 to 224): compile the command
with has_self false; with no remote operand run the call locally (the
localExec parameter models the saved original torch function) and
register a tracked result as a fresh non-pointer; with remote operands
resolve the owners, raise NotImplementedError when the union spans more
than one distinct worker, and otherwise rewrite the command to reference
descriptors and run the dispatch loop over the owners. -/
def overload_function (st : HookState) (funcName : String)
    (args : List PyVal) (kwargs : List (String × PyVal))
    (localExec : List PyVal → List (String × PyVal) → PyVal)
    (respond : String → RespDict) :
    Except PyError (DispResult × HookState) :=
  match compile_command funcName args kwargs false with
  | Except.error e => Except.error e
  | Except.ok command =>
    let tensorvars := get_tensorvars command
    let has_remote := check_remote tensorvars
    if has_remote then
      let mo := get_owners tensorvars
      if mo.1 then Except.error (PyError.notImplementedError mpcMsg)
      else func_loop (replace_in_command command) respond mo.2 st
    else
      match localExec args kwargs with
      | PyVal.tensor t =>
        let p := register_object st t none none (some false)
        Except.ok (DispResult.obj p.1, p.2)
      | v => Except.ok (DispResult.val v, st)

/-- The Grid-specific attributes installed on hooked tensor types
(source lines 140, 164 and 412): the send_, get_ and ser methods. The
service method send_command is never installed on tensor types. -/
def tensor_grid_attrs : List String := ["send_", "get_", "ser"]

/-- Dispatch loop of overload_method (source lines 253 to 266): each
iteration first rewrites the command (source line 259) and then
evaluates self.send_command (source line 260); self there is the tensor
receiver, not the service (the service is bound to service_self), and
tensor types carry only the hooked wrappers, the saved old originals,
the hooked constructors and the Grid attributes, never send_command, so
the attribute lookup raises AttributeError before any message is sent.
With no owners the loop body never runs and the final read of the
pointer variable is unbound. -/
def method_loop (c : Command) :
    List String → HookState → Except PyError (DispResult × HookState)
  | [], _ => Except.error (PyError.unboundLocalError pointerVar)
  | _ :: _, _ =>
    let _cr := replace_in_command c
    Except.error (PyError.attributeError sendCommandAttr)

/-- overload_method (source lines 236 to 279): a pointer receiver
compiles the command with has_self true, resolves owners over all
tensor-like operands and either enters the dispatch loop (remote operand
present and a single owner in the union) or raises NotImplementedError;
a non-pointer receiver runs the call locally (the localExec parameter
models the saved original method) and registers a tracked result as a
non-pointer only when the result does not already carry ownership
metadata. -/
def overload_method (st : HookState) (methodName : String) (self : TObj)
    (args : List PyVal) (kwargs : List (String × PyVal))
    (localExec : TObj → List PyVal → List (String × PyVal) → PyVal)
    (respond : String → RespDict) :
    Except PyError (DispResult × HookState) :=
  if self.is_pointer then
    match compile_command methodName (PyVal.tensor self :: args) kwargs
        true with
    | Except.error e => Except.error e
    | Except.ok command =>
      let tensorvars := get_tensorvars command
      let has_remote := check_remote tensorvars
      let mo := get_owners tensorvars
      if has_remote && !mo.1 then method_loop command mo.2 st
      else Except.error (PyError.notImplementedError mpcMsg)
  else
    match localExec self args kwargs with
    | PyVal.tensor t =>
      if t.registered then Except.ok (DispResult.obj t, st)
      else
        let p := register_object st t none none (some false)
        Except.ok (DispResult.obj p.1, p.2)
    | v => Except.ok (DispResult.val v, st)

/-- A class attribute as live introspection sees it: whether it is a
method descriptor, whether it is a plain function, and whether the
string HookService occurs in its qualified name (false also models a
missing qualified name, caught on source lines 397 to 398). -/
structure PyAttr where
  is_methoddescriptor : Bool
  is_function : Bool
  qualname_in_service : Bool
deriving DecidableEq

/-- Attribute names of the universal base type, dir of object. -/
def dir_object : List String :=
  ["__class__", "__delattr__", "__dir__", "__doc__", "__eq__",
   "__format__", "__ge__", "__getattribute__", "__gt__", "__hash__",
   "__init__", "__init_subclass__", "__le__", "__lt__", "__ne__",
   "__new__", "__reduce__", "__reduce_ex__", "__repr__", "__setattr__",
   "__sizeof__", "__str__", "__subclasshook__"]

/-- The exclusion list of the hooking pass (source lines 21 and 22). -/
def hook_exclude : List String :=
  ["ndimension", "nelement", "size", "numel", "type", "tolist", "dim",
   "__iter__", "select"]

/-- Character-list test that the first list starts with the second. -/
def charsStartWith : List Char → List Char → Bool
  | _, [] => true
  | [], _ :: _ => false
  | c :: cs, d :: ds => c == d && charsStartWith cs ds

/-- The reserved name test of source line 399: re.match with the pattern
old followed by a star matches every name that starts with the two
letters o and l, because the star lets the letter d occur zero times. -/
def is_old (name : String) : Bool :=
  charsStartWith name.toList olStart.toList

/-- The inclusion test of the hooking pass (source lines 386 to 403):
not in the exclusion list, a method descriptor or a plain function whose
qualified name is not from the service, not inherited from the universal
base type, and not matching the reserved name pattern. -/
def should_hook (name : String) (a : PyAttr) : Bool :=
  if name ∈ hook_exclude then false
  else
    (a.is_methoddescriptor || (a.is_function && !a.qualname_in_service))
      && !(dir_object.contains name) && !(is_old name)

/-- A Python class modelled as an association list from attribute names
to attributes. -/
abbrev PyClass := List (String × PyAttr)

/-- getattr on the class. -/
def class_get (cls : PyClass) (name : String) : Option PyAttr :=
  List.lookup name cls

/-- setattr on the class: overwrite in place, append when the name is
new. -/
def class_set (cls : PyClass) (name : String) (a : PyAttr) : PyClass :=
  if cls.any (fun p => p.1 == name) then
    cls.map (fun p => if p.1 == name then (name, a) else p)
  else cls ++ [(name, a)]

/-- The wrapper installed over a hooked attribute (source lines 227 to
233 and 244 to 279): a plain function whose qualified name is copied
from the wrapped attribute by functools wraps, through both wrapper
layers, so its service membership equals that of the wrapped
attribute. -/
def wrap_attr (a : PyAttr) : PyAttr :=
  { is_methoddescriptor := false, is_function := true,
    qualname_in_service := a.qualname_in_service }

/-- One step of the hooking pass (source lines 386 to 407) for one
enumerated name: when the current attribute qualifies, save it under the
reserved old name and install the wrapper over the original name. -/
def hook_step (cls : PyClass) (name : String) : PyClass :=
  match class_get cls name with
  | none => cls
  | some a =>
    if should_hook name a then
      class_set (class_set cls (oldUnderscore ++ name) a) name
        (wrap_attr a)
    else cls

/-- The generic hooking pass of hook_tensor (source lines 386 to 407):
iterate over a snapshot of the attribute names taken before the loop,
hooking each qualifying one. -/
def hook_pass (cls : PyClass) : PyClass :=
  (cls.map Prod.fst).foldl hook_step cls

/-- The kwarg_types field as claim C4 states it: a mapping from keyword
argument name to the type tag of that argument. Stated from the words of
the spec, for comparison with the field the code computes. -/
def kwarg_types_claimed (kwargs : List (String × PyVal)) :
    List (String × String) :=
  kwargs.map (fun p => (p.1, type_name p.2))

/-- Concrete worker names for witnesses. -/
def wA : String := "A"

def wB : String := "B"

def wC : String := "C"

def addName : String := "add"

def fName : String := "f"

def alphaName : String := "alpha"

def betaName : String := "beta"

def floatTensorName : String := "FloatTensor"

def fooType : String := "Foo"

/-- A concrete initial hook state on worker A. -/
def st0 : HookState :=
  { selfWorker := wA, nextId := 100, regLog := [], sentObjs := [],
    sentCommands := [], objRequests := [] }

/-- A concrete pointer owned by the remote worker B. -/
def ptrB : TObj :=
  { id := 7, owners := [wB], is_pointer := true, registered := true,
    ttype := floatTensorName, data := [] }

/-- A concrete pointer owned by the remote worker C. -/
def ptrC : TObj :=
  { id := 8, owners := [wC], is_pointer := true, registered := true,
    ttype := floatTensorName, data := [] }

/-- A concrete local non-pointer tensor on worker A. -/
def locA : TObj :=
  { id := 3, owners := [wA], is_pointer := false, registered := true,
    ttype := floatTensorName, data := [1, 2, 3] }

/-- A concrete payload as worker B would materialize it on a get. -/
def fetchedB : TObj :=
  { id := 7, owners := [wB], is_pointer := false, registered := false,
    ttype := floatTensorName, data := [4, 5] }

/-- A concrete fetch collaborator returning that payload. -/
def fetch0 : String → TObj := fun _ => fetchedB

/-- A trivial local execution collaborator for hooked functions. -/
def lexecF : List PyVal → List (String × PyVal) → PyVal :=
  fun _ _ => PyVal.int 0

/-- A trivial local execution collaborator for hooked methods. -/
def lexecM : TObj → List PyVal → List (String × PyVal) → PyVal :=
  fun _ _ _ => PyVal.int 0

/-- A collaborator response carrying only a numeric payload. -/
def respondNum : String → RespDict :=
  fun _ => { registration? := none, torch_type? := none,
             numeric? := some 5 }

/-- A collaborator response carrying none of the recognized keys. -/
def respondEmpty : String → RespDict :=
  fun _ => { registration? := none, torch_type? := none, numeric? := none }

/-- A concrete registration record for responses. -/
def reg5 : Registration := { id := 5, owners := [wB], is_pointer := true }

/-- A tensor method attribute as torch defines it: a method descriptor
defined outside the service. -/
def addAttr : PyAttr :=
  { is_methoddescriptor := true, is_function := false,
    qualname_in_service := false }

/-- A concrete class with a single hookable method named add. -/
def cls1 : PyClass := [(addName, addAttr)]

/-- A concrete variable whose data and grad are present and not yet
registered. -/
def var0 : VarObj :=
  { id := 21, owners := [wB], is_pointer := true, old_data := fetchedB,
    old_grad := some fetchedB, data_registered := false,
    grad_registered := false }

/-! Theorems settling the claims, preceded by the helper lemmas their
proofs share. -/

/-- C3: compile_command is a pure function of function name, args,
kwargs and has_self; with has_self true the first positional argument
becomes the self field and the remaining positionals keep their order in
args; compiling identical inputs twice yields structurally equal
Commands (purity is by construction in this embedding, so the repeated
call is literally the same value). -/
theorem c3_compile_command_pure_and_self (f : String) (a : PyVal)
    (rest : List PyVal) (kwargs : List (String × PyVal)) :
    compile_command f (a :: rest) kwargs true =
      Except.ok { has_self := true, self? := some a, command := f,
                  args := rest, kwargs := kwargs,
                  arg_types := rest.map type_name,
                  kwarg_types := kwargs.map (fun p => type_name p.2) }
    ∧ ∀ (args : List PyVal) (hs : Bool),
        compile_command f args kwargs hs = compile_command f args kwargs hs :=
  ⟨rfl, fun _ _ => rfl⟩

/-- C4 counterexample: two keyword dictionaries that differ only in the
keyword names compile to identical kwarg_types fields, while the claimed
name-to-tag mapping differs; the field therefore records no keyword
names and is not a mapping from names to tags. -/
theorem c4_counterexample :
    (compile_command fName [] [(alphaName, PyVal.int 1)] false).map
        Command.kwarg_types
      = (compile_command fName [] [(betaName, PyVal.int 1)] false).map
        Command.kwarg_types
    ∧ kwarg_types_claimed [(alphaName, PyVal.int 1)]
        ≠ kwarg_types_claimed [(betaName, PyVal.int 1)] := by
  constructor
  · rfl
  · decide

/-- C4 amended: arg_types is one type tag per positional argument in
order (per remaining positional when has_self holds), and kwarg_types is
a sequence of type tags, one per keyword argument in keyword order,
computed independently of the positional tags; the keyword names are not
recorded in kwarg_types. -/
theorem c4_command_type_tags (f : String) (args : List PyVal)
    (kwargs : List (String × PyVal)) (a : PyVal) :
    ((compile_command f args kwargs false).map Command.arg_types
        = Except.ok (args.map type_name)
      ∧ (compile_command f args kwargs false).map Command.kwarg_types
        = Except.ok (kwargs.map (fun p => type_name p.2)))
    ∧ ((compile_command f (a :: args) kwargs true).map Command.arg_types
        = Except.ok (args.map type_name)
      ∧ (compile_command f (a :: args) kwargs true).map Command.kwarg_types
        = Except.ok (kwargs.map (fun p => type_name p.2))) :=
  ⟨⟨rfl, rfl⟩, ⟨rfl, rfl⟩⟩

/-- C2: evaluation at the failing input. A hooked method called on a
pointer whose single owner is the remote worker B does not forward the
command to B; the loop body evaluates self.send_command with self bound
to the tensor receiver, tensor types never define send_command, and the
call raises AttributeError before any message is sent. -/
theorem c2_method_remote_attribute_error :
    overload_method st0 addName ptrB [] [] lexecM respondEmpty
      = Except.error (PyError.attributeError sendCommandAttr) := by
  rfl

/-- C7: evaluation at the failing input. A remote response carrying only
a numeric payload is not returned as a scalar: process_response extracts
the bare number, the dispatcher subscripts it for the registration key,
and the resulting TypeError is not caught by the handler for KeyError. -/
theorem c7_numeric_response_type_error :
    overload_function st0 addName [PyVal.tensor ptrB] [] lexecF respondNum
      = Except.error (PyError.typeError notSubscriptableMsg) := by
  rfl

/-- C8: evaluation at the failing input. Assembling a result pointer for
an unrecognized declared type does not raise the intended TypeError
naming the type: formatting the message evaluates the undefined name
_tensor_type, so a NameError for that name is raised instead. -/
theorem c8_unrecognized_type_name_error :
    assemble_result_pointer st0 reg5 fooType
      = Except.error (PyError.nameError tensorTypeVar) := by
  rfl

/-- C9: evaluation at the failing input. The hooking pass over a class
with the single method descriptor add wraps it and saves the original
under old_add; running the pass a second time is not a no-op: the
wrapper carries the qualified name copied from the original, the service
guard does not recognize it, the attribute is wrapped again, and the
saved original under old_add is overwritten by the first pass wrapper. -/
theorem c9_double_hook_not_noop :
    hook_pass (hook_pass cls1) ≠ hook_pass cls1
    ∧ class_get (hook_pass cls1) (oldUnderscore ++ addName) = some addAttr
    ∧ class_get (hook_pass (hook_pass cls1)) (oldUnderscore ++ addName)
        = some (wrap_attr addAttr) := by
  refine ⟨by decide, rfl, rfl⟩

/-- C1: whenever a compiled command has a remote tensor-like operand and
the union of the owners of the remote operands spans more than one
distinct worker, dispatch raises NotImplementedError, through the hooked
free function path and through the hooked method path alike; the raise
is the whole outcome of the call, so no message is sent and no merged or
best-effort execution is attempted. -/
theorem c1_multi_owner_raises (st : HookState) (f : String)
    (args : List PyVal) (kwargs : List (String × PyVal))
    (lf : List PyVal → List (String × PyVal) → PyVal)
    (lm : TObj → List PyVal → List (String × PyVal) → PyVal)
    (respond : String → RespDict) (self : TObj) (c d : Command)
    (hcf : compile_command f args kwargs false = Except.ok c)
    (hrf : check_remote (get_tensorvars c) = true)
    (hmf : (get_owners (get_tensorvars c)).1 = true)
    (hp : self.is_pointer = true)
    (hcd : compile_command f (PyVal.tensor self :: args) kwargs true
      = Except.ok d)
    (hmd : (get_owners (get_tensorvars d)).1 = true) :
    overload_function st f args kwargs lf respond
        = Except.error (PyError.notImplementedError mpcMsg)
    ∧ overload_method st f self args kwargs lm respond
        = Except.error (PyError.notImplementedError mpcMsg) := by
  constructor
  · unfold overload_function
    rw [hcf]
    simp [hrf, hmf]
  · unfold overload_method
    rw [hp]
    simp only [if_true]
    rw [hcd]
    simp [hmd]

/-- C1 witness: a concrete command whose remote operands are owned by
the two distinct workers B and C raises NotImplementedError in both
dispatch paths. -/
theorem c1_multi_owner_raises_witness :
    overload_function st0 addName [PyVal.tensor ptrB, PyVal.tensor ptrC]
        [] lexecF respondEmpty
      = Except.error (PyError.notImplementedError mpcMsg)
    ∧ overload_method st0 addName ptrB
        [PyVal.tensor ptrB, PyVal.tensor ptrC] [] lexecM respondEmpty
      = Except.error (PyError.notImplementedError mpcMsg) := by
  refine c1_multi_owner_raises st0 addName
    [PyVal.tensor ptrB, PyVal.tensor ptrC] [] lexecF lexecM respondEmpty
    ptrB _ _ rfl ?_ ?_ rfl rfl ?_
  · decide
  · decide
  · decide

/-- Helper for C5: the publish loop of send_ appends one full object per
destination, in order, to the log of sent objects and changes nothing
else in the state. -/
theorem sendobj_foldl (obj : TObj) (ws : List String) :
    ∀ st : HookState,
      ws.foldl (fun s w => send_obj s obj w) st
        = { st with sentObjs := st.sentObjs ++ ws.map (fun w => (w, obj)) } := by
  induction ws with
  | nil => intro st; simp
  | cons w ws ih =>
    intro st
    simp only [List.foldl_cons, List.map_cons]
    rw [ih]
    simp [send_obj, List.append_assoc]

/-- C5: send_ with a non-empty destination sequence keeps the id of the
handle unchanged throughout, transmits the full payload (data included)
to each destination in order, and leaves the local handle as a
zero-sized placeholder re-registered with is_pointer true and owners
equal to the destinations; the registration log records the in-place
re-registration under the unchanged id, the two constructions of the
placeholder, and the final pointer registration under the unchanged
id. -/
theorem c5_send_spec (st : HookState) (h : TObj) (ws : List String)
    (hne : ws ≠ []) :
    (send_ st h ws).1.id = h.id
    ∧ (send_ st h ws).1.is_pointer = true
    ∧ (send_ st h ws).1.owners = ws
    ∧ (send_ st h ws).1.data = []
    ∧ (send_ st h ws).2.sentObjs
        = st.sentObjs ++ ws.map (fun w =>
            (w, { h with
                  owners := ws, is_pointer := false, registered := true }))
    ∧ (send_ st h ws).2.regLog
        = st.regLog ++ [(h.id, ws, false),
            (st.nextId, [st.selfWorker], false),
            (st.nextId + 1, [st.selfWorker], false),
            (h.id, ws, true)] := by
  simp only [send_, check_workers]
  rw [sendobj_foldl]
  simp [register_object, construct_tensor, old_set_, List.append_assoc]

/-- C5 witness: sending the concrete local tensor to the two workers B
and C keeps the id, publishes the full payload to B and then to C, and
leaves a zero-sized pointer owned by B and C. -/
theorem c5_send_spec_witness :
    (send_ st0 locA [wB, wC]).1.id = locA.id
    ∧ (send_ st0 locA [wB, wC]).1.is_pointer = true
    ∧ (send_ st0 locA [wB, wC]).1.owners = [wB, wC]
    ∧ (send_ st0 locA [wB, wC]).1.data = []
    ∧ (send_ st0 locA [wB, wC]).2.sentObjs
        = st0.sentObjs ++ [wB, wC].map (fun w =>
            (w, { locA with
                  owners := [wB, wC], is_pointer := false,
                  registered := true })) := by
  have h := c5_send_spec st0 locA [wB, wC] (by decide)
  exact ⟨h.1, h.2.1, h.2.2.1, h.2.2.2.1, h.2.2.2.2.1⟩

/-- Helper for C6: the request loop of get_ produces the registered
fetched payloads in owner order, appends one object request per owner in
order, and records one registration per fetched payload under its own
id. -/
theorem get_loop_spec (fetch : String → TObj) (i : Nat) (ws : List String) :
    ∀ st : HookState,
      get_loop fetch i ws st
        = (ws.map (fun w =>
              { fetch w with is_pointer := false, registered := true }),
           { st with
              objRequests := st.objRequests ++ ws.map (fun w => (w, i)),
              regLog := st.regLog ++ ws.map (fun w =>
                ((fetch w).id, (fetch w).owners, false)) }) := by
  induction ws with
  | nil => intro st; simp [get_loop]
  | cons w ws ih =>
    intro st
    simp only [get_loop, List.map_cons]
    rw [ih]
    simp [register_object, List.append_assoc]

/-- C6: get_ returns the handle unchanged with no messaging when the
local worker is already among the owners; otherwise it requests the
payload from each current owner in owner order, registers each retrieved
payload, selects the first collected payload with the default reduce,
overwrites local storage with it, and re-registers under the original id
with is_pointer false while the owners are not reset to the local
worker. -/
theorem c6_get_spec (st : HookState) (self : TObj) (fetch : String → TObj) :
    (∀ reduce, st.selfWorker ∈ self.owners →
      get_ st self reduce fetch = Except.ok (self, st))
    ∧ (∀ w rest, st.selfWorker ∉ self.owners → self.owners = w :: rest →
        ∃ p : TObj × HookState,
          get_ st self default_reduce fetch = Except.ok p
          ∧ p.1.id = self.id
          ∧ p.1.is_pointer = false
          ∧ p.1.owners = self.owners
          ∧ p.1.data = (fetch w).data
          ∧ p.2.objRequests
              = st.objRequests ++ self.owners.map (fun o => (o, self.id))
          ∧ p.2.regLog
              = st.regLog
                ++ self.owners.map (fun o =>
                    ((fetch o).id, (fetch o).owners, false))
                ++ [(self.id, self.owners, false)]) := by
  constructor
  · intro reduce hmem
    simp [get_, hmem]
  · intro w rest hnot howners
    have hl := get_loop_spec fetch self.id self.owners st
    rw [howners] at hl
    simp only [get_]
    rw [if_neg hnot, howners, hl]
    simp only [List.map_cons, default_reduce]
    refine ⟨_, rfl, ?_, ?_, ?_, ?_, ?_, ?_⟩
    · simp [register_object, old_set_]
    · simp [register_object, old_set_]
    · simp [register_object, old_set_, howners]
    · simp [register_object, old_set_]
    · simp [register_object, old_set_, howners]
    · simp [register_object, old_set_, howners, List.append_assoc]

/-- C6 witness: getting a tensor the local worker already owns is the
identity, and getting the concrete pointer owned by B requests from B
and ends with the payload of B under the original id and the original
owners. -/
theorem c6_get_spec_witness :
    get_ st0 locA default_reduce fetch0 = Except.ok (locA, st0)
    ∧ ∃ p : TObj × HookState,
        get_ st0 ptrB default_reduce fetch0 = Except.ok p
        ∧ p.1.id = ptrB.id
        ∧ p.1.owners = ptrB.owners
        ∧ p.1.data = (fetch0 wB).data := by
  have h1 := (c6_get_spec st0 locA fetch0).1 default_reduce (by decide)
  have h2 := (c6_get_spec st0 ptrB fetch0).2 wB [] (by decide) rfl
  obtain ⟨p, hp⟩ := h2
  exact ⟨h1, p, hp.1, hp.2.1, hp.2.2.2.1, hp.2.2.2.2.1⟩

/-- C10: on first access the hooked data property registers the
underlying tensor under the id, owners and pointer flag of the Variable
itself and sets the memo flag, and the hooked grad property does the
same when the grad is not None; every later access returns the cached
tensor with the variable and the state unchanged, so the registration
happens at most once. -/
theorem c10_var_contents_spec (st : HookState) (v : VarObj) (g : TObj)
    (hd : v.data_registered = false) (hg : v.grad_registered = false)
    (hgrad : v.old_grad = some g) :
    ((new_data st v).1.id = v.id
      ∧ (new_data st v).1.owners = v.owners
      ∧ (new_data st v).1.is_pointer = v.is_pointer
      ∧ (new_data st v).2.1.data_registered = true
      ∧ (new_data st v).2.2.regLog
          = st.regLog ++ [(v.id, v.owners, v.is_pointer)]
      ∧ new_data (new_data st v).2.2 (new_data st v).2.1
          = ((new_data st v).1, (new_data st v).2.1, (new_data st v).2.2))
    ∧ ((new_grad st v).1
          = some { g with
                   id := v.id, owners := v.owners,
                   is_pointer := v.is_pointer, registered := true }
      ∧ (new_grad st v).2.1.grad_registered = true
      ∧ (new_grad st v).2.2.regLog
          = st.regLog ++ [(v.id, v.owners, v.is_pointer)]
      ∧ new_grad (new_grad st v).2.2 (new_grad st v).2.1
          = ((new_grad st v).1, (new_grad st v).2.1,
             (new_grad st v).2.2)) := by
  constructor
  · simp [new_data, register_object, hd]
  · simp [new_grad, register_object, hg, hgrad]

/-- C10 witness: the concrete unregistered variable registers its data
and its grad under its own id on first access, and a second access of
the data returns the cached tensor with everything unchanged. -/
theorem c10_var_contents_spec_witness :
    (new_data st0 var0).1.id = var0.id
    ∧ (new_data st0 var0).2.1.data_registered = true
    ∧ (new_grad st0 var0).2.1.grad_registered = true
    ∧ new_data (new_data st0 var0).2.2 (new_data st0 var0).2.1
        = ((new_data st0 var0).1, (new_data st0 var0).2.1,
           (new_data st0 var0).2.2) := by
  have h := c10_var_contents_spec st0 var0 fetchedB rfl rfl rfl
  exact ⟨h.1.1, h.1.2.2.2.1, h.2.2.1, h.1.2.2.2.2.2⟩
